import Mathlib

/-!
Shallow embedding of the sea-power simulation core (`st_seapower.py`):
the `NationAgent` per-step update rules (economic cycle, investment,
maintenance) and the `SeaPowerModel` global step (scripted escalation
check, sea-control determination, agent activation).  Python floats are
modelled as exact rationals; Python float floor-division `//` is modelled
by `Int.floor` of the exact quotient.
-/

namespace SeaPower

/-- Investment strategy weights, mirroring the Python dict with keys
`navy`, `merchant`, `industry`. -/
structure Strategy where
  navy : ℚ
  merchant : ℚ
  industry : ℚ
deriving DecidableEq, Repr

/-- State of one nation agent, mirroring `NationAgent.__init__`. -/
structure NationAgent where
  name : String
  strategy : Strategy
  color : String
  land_security_burden : ℚ
  wealth : ℚ
  industry : ℚ
  merchant_fleet : ℚ
  navy : ℚ
  has_sea_control : Bool
  is_blockaded : Bool
deriving DecidableEq, Repr

/-- `NationAgent.__init__`: constructor arguments plus the hardcoded
starting stocks (wealth 500, industry 120, merchant_fleet 50, navy 20). -/
def NationAgent.mk0 (name : String) (strategy : Strategy) (color : String)
    (burden : ℚ) : NationAgent :=
  { name := name, strategy := strategy, color := color,
    land_security_burden := burden,
    wealth := 500, industry := 120, merchant_fleet := 50, navy := 20,
    has_sea_control := false, is_blockaded := false }

/-- `NationAgent.total_power` (derived, recomputed on read). -/
def NationAgent.total_power (a : NationAgent) : ℚ :=
  let ship_value : ℚ := if a.is_blockaded then 0.2 else 2.0
  let asset_value := a.industry * 5 + a.navy * 15 + a.merchant_fleet * ship_value
  a.wealth + asset_value

/-- `NationAgent.economic_cycle`: the land power (color `"#8B4513"`) has
industrial multiplier 4.0 unconditionally; others 0.2 if blockaded else 1.5;
trade efficiency 2.0 / 0.05 / 0.8. -/
def NationAgent.economic_cycle (a : NationAgent) : NationAgent :=
  let ind_multiplier : ℚ :=
    if a.color = "#8B4513" then 4.0 else if a.is_blockaded then 0.2 else 1.5
  let base_income := a.industry * ind_multiplier
  let trade_eff : ℚ :=
    if a.has_sea_control then 2.0 else if a.is_blockaded then 0.05 else 0.8
  let trade_income := a.merchant_fleet * 2.0 * trade_eff
  { a with wealth := a.wealth + (base_income + trade_income) }

/-- Python float floor-division `x // y` is `floor (x / y)`; this is the
floored value cast back to ℚ. -/
def floorQ (x : ℚ) : ℚ := ((⌊x⌋ : ℤ) : ℚ)

/-- `NationAgent.invest`: skip when wealth ≤ 10, otherwise deduct a 40%
budget and add the floored allocation shares. -/
def NationAgent.invest (a : NationAgent) : NationAgent :=
  if a.wealth ≤ 10 then a else
  let budget := a.wealth * 0.4
  let net_budget := budget * (1 - a.land_security_burden)
  { a with
    wealth := a.wealth - budget,
    industry := a.industry + floorQ (net_budget * a.strategy.industry / 40),
    merchant_fleet := a.merchant_fleet + floorQ (net_budget * a.strategy.merchant / 8),
    navy := a.navy + floorQ (net_budget * a.strategy.navy / 15) }

/-- `NationAgent.pay_maintenance`: deduct upkeep, clamp wealth at 0. -/
def NationAgent.pay_maintenance (a : NationAgent) : NationAgent :=
  let cost := a.navy * 0.8 + a.merchant_fleet * 0.2
  let w := a.wealth - cost
  { a with wealth := if w < 0 then 0 else w }

/-- `NationAgent.step`: the three ordered sub-rules. -/
def NationAgent.step (a : NationAgent) : NationAgent :=
  a.economic_cycle.invest.pay_maintenance

/-- State of the whole simulation: the three agents in scheduler insertion
order (UK, Germany, Netherlands), the step counter of the scheduler, the
global sea-state label and the pending status message. -/
structure SeaPowerModel where
  current_sea_state : String
  status_message : String
  steps : ℕ
  uk : NationAgent
  ger : NationAgent
  ned : NationAgent
deriving DecidableEq, Repr

/-- `SeaPowerModel.__init__`: the three fixed agents with their hardcoded
archetype parameters. -/
def SeaPowerModel.init (land_burden_ger land_burden_uk : ℚ) : SeaPowerModel :=
  { current_sea_state := "Contested", status_message := "", steps := 0,
    uk := NationAgent.mk0 "UK (Sea)" ⟨0.6, 0.3, 0.1⟩ "blue" land_burden_uk,
    ger := NationAgent.mk0 "Germany (Land)" ⟨0.3, 0.2, 0.5⟩ "#8B4513" land_burden_ger,
    ned := NationAgent.mk0 "Netherlands" ⟨0.1, 0.8, 0.1⟩ "orange" 0.1 }

/-- The agents in scheduler insertion order, indexed 0 = UK, 1 = Germany,
2 = Netherlands. -/
def SeaPowerModel.agent (m : SeaPowerModel) : Fin 3 → NationAgent
  | 0 => m.uk
  | 1 => m.ger
  | 2 => m.ned

/-- Apply an in-place mutation to one agent. -/
def SeaPowerModel.updAgent (m : SeaPowerModel) (i : Fin 3)
    (f : NationAgent → NationAgent) : SeaPowerModel :=
  match i with
  | 0 => { m with uk := f m.uk }
  | 1 => { m with ger := f m.ger }
  | 2 => { m with ned := f m.ned }

/-- Indices of the agents after Python's stable `sorted(..., key=navy,
reverse=True)`: (strongest, runner-up, third); ties keep insertion order. -/
def SeaPowerModel.sortedIdx (m : SeaPowerModel) : Fin 3 × Fin 3 × Fin 3 :=
  let pq : Fin 3 × Fin 3 :=
    if (m.agent 2).navy > (m.agent 1).navy then (2, 1) else (1, 2)
  if (m.agent 0).navy ≥ (m.agent pq.1).navy then (0, pq.1, pq.2)
  else if (m.agent 0).navy ≥ (m.agent pq.2).navy then (pq.1, 0, pq.2)
  else (pq.1, pq.2, 0)

/-- The guarded navy ratio `strongest.navy / max(1, runner_up.navy)`. -/
def SeaPowerModel.ratio (m : SeaPowerModel) : ℚ :=
  (m.agent m.sortedIdx.1).navy / max 1 (m.agent m.sortedIdx.2.1).navy

/-- `SeaPowerModel.determine_sea_control`: reset both flags on every agent,
then either grant sea control to the strongest and blockade the rest
(ratio > 1.2) or decay the two strongest navies by 0.95 (ratio ≤ 1.2). -/
def SeaPowerModel.determine_sea_control (m : SeaPowerModel) : SeaPowerModel :=
  let st := m.sortedIdx.1
  let ru := m.sortedIdx.2.1
  let m1 := (((m.updAgent 0 fun a => { a with has_sea_control := false, is_blockaded := false }).updAgent
      1 fun a => { a with has_sea_control := false, is_blockaded := false }).updAgent
      2 fun a => { a with has_sea_control := false, is_blockaded := false })
  if m.ratio > 1.2 then
    let m2 := m1.updAgent st fun a => { a with has_sea_control := true }
    let m3 := { m2 with current_sea_state :=
      if (m.agent st).color = "blue" then "blue_domination"
      else if (m.agent st).color = "#8B4513" then "red_domination"
      else if (m.agent st).color = "orange" then "orange_domination"
      else m2.current_sea_state }
    let blk := fun (mm : SeaPowerModel) (i : Fin 3) =>
      if i ≠ st then mm.updAgent i (fun a => { a with is_blockaded := true }) else mm
    blk (blk (blk m3 0) 1) 2
  else
    let m2 := { m1 with current_sea_state := "Contested" }
    let m3 := m2.updAgent st fun a => { a with navy := a.navy * 0.95 }
    m3.updAgent ru fun a => { a with navy := a.navy * 0.95 }

/-- The scripted escalation branch at the top of `SeaPowerModel.step`:
fires only when the scheduler step counter is exactly 15 and Germany's
land-security burden is below 0.1. -/
def SeaPowerModel.escalation_check (m : SeaPowerModel) : SeaPowerModel :=
  if m.steps = 15 then
    if m.ger.land_security_burden < 0.1 then
      { m with
        ger := { m.ger with strategy := ⟨0.8, 0.0, 0.2⟩, name := "Germany (Total War)" }
        status_message := "⚠️ 警告：德国启动《提尔皮茨计划》！(Total War Econ)" }
    else m
  else m

/-- `RandomActivation.step`: each agent steps (the per-agent update touches
only that agent's own state, so the canonical insertion order is used here),
then the scheduler step counter is incremented. -/
def SeaPowerModel.schedule_step (m : SeaPowerModel) : SeaPowerModel :=
  let m1 := ((m.updAgent 0 NationAgent.step).updAgent 1 NationAgent.step).updAgent 2 NationAgent.step
  { m1 with steps := m1.steps + 1 }

/-- `SeaPowerModel.step`: escalation check, sea-control determination, then
agent activation (the data collector has no effect on model state). -/
def SeaPowerModel.step (m : SeaPowerModel) : SeaPowerModel :=
  m.escalation_check.determine_sea_control.schedule_step

/-- Run the simulation `n` steps from construction. -/
def SeaPowerModel.run (bg bu : ℚ) : ℕ → SeaPowerModel
  | 0 => SeaPowerModel.init bg bu
  | n + 1 => (SeaPowerModel.run bg bu n).step

/-- `RandomActivation.step` with an explicit (arbitrary) activation order:
the scheduler shuffles the agent list, so an activation order is any
permutation of the three agent indices. -/
def SeaPowerModel.schedule_stepOrdered (m : SeaPowerModel) (order : List (Fin 3)) :
    SeaPowerModel :=
  let m1 := order.foldl (fun mm i => mm.updAgent i NationAgent.step) m
  { m1 with steps := m1.steps + 1 }

/-- One whole-model step with an explicit agent activation order. -/
def SeaPowerModel.stepOrdered (m : SeaPowerModel) (order : List (Fin 3)) :
    SeaPowerModel :=
  m.escalation_check.determine_sea_control.schedule_stepOrdered order

/-- Run the simulation with an explicit activation order for each step. -/
def SeaPowerModel.runOrdered (bg bu : ℚ) (orders : ℕ → List (Fin 3)) :
    ℕ → SeaPowerModel
  | 0 => SeaPowerModel.init bg bu
  | n + 1 => (SeaPowerModel.runOrdered bg bu orders n).stepOrdered (orders n)

/-- The guard of the scripted escalation: it can rewrite state only when the
scheduler step counter is exactly 15 and Germany's burden is below 0.1. -/
def escalationFires (m : SeaPowerModel) : Prop :=
  m.steps = 15 ∧ m.ger.land_security_burden < 0.1

/-- Range/sign conditions on an agent's fixed parameters: burden in [0, 1]
and non-negative strategy weights (the boundary supplies burdens in [0, 1];
all strategies occurring in the program are non-negative). -/
def paramsOK (a : NationAgent) : Prop :=
  0 ≤ a.land_security_burden ∧ a.land_security_burden ≤ 1 ∧
  0 ≤ a.strategy.navy ∧ 0 ≤ a.strategy.merchant ∧ 0 ≤ a.strategy.industry

/-- A concrete state with navies (1, 0, 0): the strongest navy exceeds the
runner-up's by more than 20%, yet the guarded ratio is 1/max(1,0) = 1. -/
def cex2 : SeaPowerModel :=
  { current_sea_state := "Contested", status_message := "", steps := 0,
    uk := { NationAgent.mk0 "UK (Sea)" ⟨0.6, 0.3, 0.1⟩ "blue" 0.05 with navy := 1 }
    ger := { NationAgent.mk0 "Germany (Land)" ⟨0.3, 0.2, 0.5⟩ "#8B4513" 0.5 with navy := 0 }
    ned := { NationAgent.mk0 "Netherlands" ⟨0.1, 0.8, 0.1⟩ "orange" 0.1 with navy := 0 } }

/-- A concrete state with navies (40, 20, 20), where the ratio is 2 and the
UK gains sea control. -/
def mDom : SeaPowerModel :=
  { SeaPowerModel.init 0.5 0.05 with
    uk := { NationAgent.mk0 "UK (Sea)" ⟨0.6, 0.3, 0.1⟩ "blue" 0.05 with navy := 40 } }

/-- A concrete agent below the subsistence floor (wealth 5). -/
def aLow : NationAgent :=
  { NationAgent.mk0 "UK (Sea)" ⟨0.6, 0.3, 0.1⟩ "blue" 0.05 with wealth := 5 }

/-- A concrete agent above the subsistence floor (wealth 100, burden 0). -/
def aHigh : NationAgent :=
  { NationAgent.mk0 "UK (Sea)" ⟨0.6, 0.3, 0.1⟩ "blue" 0 with wealth := 100 }

/-- A concrete model state poised at the escalation step (counter 15,
Germany's burden 0). -/
def mEsc : SeaPowerModel :=
  { SeaPowerModel.init 0 0 with steps := 15 }

/-! ### Basic equations for agent access and update -/

theorem agent_zero (m : SeaPowerModel) : m.agent 0 = m.uk := rfl

theorem agent_one (m : SeaPowerModel) : m.agent 1 = m.ger := rfl

theorem agent_two (m : SeaPowerModel) : m.agent 2 = m.ned := rfl

theorem updAgent_zero (m : SeaPowerModel) (f : NationAgent → NationAgent) :
    m.updAgent 0 f = { m with uk := f m.uk } := rfl

theorem updAgent_one (m : SeaPowerModel) (f : NationAgent → NationAgent) :
    m.updAgent 1 f = { m with ger := f m.ger } := rfl

theorem updAgent_two (m : SeaPowerModel) (f : NationAgent → NationAgent) :
    m.updAgent 2 f = { m with ned := f m.ned } := rfl

/-! ### The stable sort of the three agents by navy -/

/-- The sorted index triple is one of the six permutations of (0, 1, 2). -/
theorem sortedIdx_perm (m : SeaPowerModel) :
    m.sortedIdx = (0, 1, 2) ∨ m.sortedIdx = (0, 2, 1) ∨ m.sortedIdx = (1, 0, 2) ∨
    m.sortedIdx = (2, 0, 1) ∨ m.sortedIdx = (1, 2, 0) ∨ m.sortedIdx = (2, 1, 0) := by
  unfold SeaPowerModel.sortedIdx
  dsimp only
  split_ifs <;> tauto

/-- The sorted triple is ordered by descending navy. -/
theorem sortedIdx_sorted (m : SeaPowerModel) :
    (m.agent m.sortedIdx.2.1).navy ≤ (m.agent m.sortedIdx.1).navy ∧
    (m.agent m.sortedIdx.2.2).navy ≤ (m.agent m.sortedIdx.2.1).navy := by
  unfold SeaPowerModel.sortedIdx
  dsimp only
  split_ifs <;> constructor <;> linarith

/-- The strongest agent of the sort has the (weakly) greatest navy. -/
theorem sortedIdx_max (m : SeaPowerModel) (i : Fin 3) :
    (m.agent i).navy ≤ (m.agent m.sortedIdx.1).navy := by
  obtain ⟨h1, h2⟩ := sortedIdx_sorted m
  rcases sortedIdx_perm m with h | h | h | h | h | h <;> rw [h] at h1 h2 ⊢ <;>
    fin_cases i <;> simp at h1 h2 ⊢ <;> linarith

/-- The three sorted indices are pairwise distinct. -/
theorem sortedIdx_ne (m : SeaPowerModel) :
    m.sortedIdx.1 ≠ m.sortedIdx.2.1 ∧ m.sortedIdx.1 ≠ m.sortedIdx.2.2 ∧
    m.sortedIdx.2.1 ≠ m.sortedIdx.2.2 := by
  rcases sortedIdx_perm m with h | h | h | h | h | h <;> rw [h] <;> refine ⟨?_, ?_, ?_⟩ <;> decide

/-! ### Characterization of the sea-control determination -/

/-- Per-agent effect of `determine_sea_control`: flags are fully recomputed
from scratch, sea control goes to the strongest exactly when the guarded
ratio exceeds 1.2, blockade to all the others; in the contested branch the
top two navies decay by 0.95 and everything else is unchanged. -/
theorem determine_agent_eq (m : SeaPowerModel) (i : Fin 3) :
    (m.determine_sea_control).agent i =
      if 1.2 < m.ratio then
        { m.agent i with has_sea_control := decide (i = m.sortedIdx.1),
                         is_blockaded := decide (i ≠ m.sortedIdx.1) }
      else
        { m.agent i with
          navy := if i = m.sortedIdx.1 ∨ i = m.sortedIdx.2.1
                  then (m.agent i).navy * 0.95 else (m.agent i).navy,
          has_sea_control := false, is_blockaded := false } := by
  by_cases hr : 1.2 < m.ratio <;>
    rcases sortedIdx_perm m with h | h | h | h | h | h <;>
      fin_cases i <;>
        simp [SeaPowerModel.determine_sea_control, h, hr, SeaPowerModel.updAgent,
          SeaPowerModel.agent]

/-- Model-level effect of `determine_sea_control` on the sea-state label. -/
theorem determine_sea_state_eq (m : SeaPowerModel) :
    (m.determine_sea_control).current_sea_state =
      if 1.2 < m.ratio then
        (if (m.agent m.sortedIdx.1).color = "blue" then "blue_domination"
         else if (m.agent m.sortedIdx.1).color = "#8B4513" then "red_domination"
         else if (m.agent m.sortedIdx.1).color = "orange" then "orange_domination"
         else m.current_sea_state)
      else "Contested" := by
  by_cases hr : 1.2 < m.ratio <;>
    rcases sortedIdx_perm m with h | h | h | h | h | h <;>
      simp [SeaPowerModel.determine_sea_control, h, hr, SeaPowerModel.updAgent,
        SeaPowerModel.agent]

/-- `determine_sea_control` leaves the step counter and status message alone. -/
theorem determine_frame (m : SeaPowerModel) :
    (m.determine_sea_control).steps = m.steps ∧
    (m.determine_sea_control).status_message = m.status_message := by
  by_cases hr : 1.2 < m.ratio <;>
    rcases sortedIdx_perm m with h | h | h | h | h | h <;>
      simp [SeaPowerModel.determine_sea_control, h, hr, SeaPowerModel.updAgent]

/-- Fields of the agent untouched by `determine_sea_control`. -/
theorem determine_preserves (m : SeaPowerModel) (i : Fin 3) :
    ((m.determine_sea_control).agent i).name = (m.agent i).name ∧
    ((m.determine_sea_control).agent i).strategy = (m.agent i).strategy ∧
    ((m.determine_sea_control).agent i).color = (m.agent i).color ∧
    ((m.determine_sea_control).agent i).land_security_burden = (m.agent i).land_security_burden ∧
    ((m.determine_sea_control).agent i).wealth = (m.agent i).wealth ∧
    ((m.determine_sea_control).agent i).industry = (m.agent i).industry ∧
    ((m.determine_sea_control).agent i).merchant_fleet = (m.agent i).merchant_fleet := by
  rw [determine_agent_eq]
  split_ifs <;> exact ⟨rfl, rfl, rfl, rfl, rfl, rfl, rfl⟩

/-! ### Per-phase field equations for the agent update -/

theorem economic_cycle_eq (a : NationAgent) :
    a.economic_cycle = { a with wealth := a.wealth +
      (a.industry * (if a.color = "#8B4513" then 4.0 else if a.is_blockaded then 0.2 else 1.5) +
       a.merchant_fleet * 2.0 *
         (if a.has_sea_control then 2.0 else if a.is_blockaded then 0.05 else 0.8)) } := rfl

theorem invest_of_le (a : NationAgent) (h : a.wealth ≤ 10) : a.invest = a := by
  unfold NationAgent.invest
  rw [if_pos h]

theorem invest_of_gt (a : NationAgent) (h : 10 < a.wealth) :
    a.invest = { a with
      wealth := a.wealth - a.wealth * 0.4,
      industry := a.industry + floorQ (a.wealth * 0.4 * (1 - a.land_security_burden) * a.strategy.industry / 40),
      merchant_fleet := a.merchant_fleet + floorQ (a.wealth * 0.4 * (1 - a.land_security_burden) * a.strategy.merchant / 8),
      navy := a.navy + floorQ (a.wealth * 0.4 * (1 - a.land_security_burden) * a.strategy.navy / 15) } := by
  unfold NationAgent.invest
  rw [if_neg (not_le.mpr h)]

theorem pay_maintenance_eq (a : NationAgent) :
    a.pay_maintenance = { a with wealth :=
      if a.wealth - (a.navy * 0.8 + a.merchant_fleet * 0.2) < 0 then 0
      else a.wealth - (a.navy * 0.8 + a.merchant_fleet * 0.2) } := rfl

/-- Maintenance always leaves wealth clamped at 0 or above. -/
theorem pay_maintenance_wealth_nonneg (a : NationAgent) : 0 ≤ a.pay_maintenance.wealth := by
  rw [pay_maintenance_eq]
  dsimp only
  split_ifs with h
  · exact le_refl 0
  · linarith [not_lt.mp h]

/-- Non-negative inputs floor to a non-negative value. -/
theorem floorQ_nonneg {x : ℚ} (h : 0 ≤ x) : 0 ≤ floorQ x := by
  unfold floorQ
  exact_mod_cast Int.floor_nonneg.mpr h

/-- The whole agent step never changes identity, strategy, color, burden or
the two flags. -/
theorem step_frame (a : NationAgent) :
    a.step.name = a.name ∧ a.step.strategy = a.strategy ∧ a.step.color = a.color ∧
    a.step.land_security_burden = a.land_security_burden ∧
    a.step.has_sea_control = a.has_sea_control ∧ a.step.is_blockaded = a.is_blockaded := by
  unfold NationAgent.step
  rcases le_or_lt a.economic_cycle.wealth 10 with h | h
  · rw [invest_of_le _ h]
    exact ⟨rfl, rfl, rfl, rfl, rfl, rfl⟩
  · rw [invest_of_gt _ h]
    exact ⟨rfl, rfl, rfl, rfl, rfl, rfl⟩

/-- Investment never shrinks any stock when the burden is at most 1 and the
strategy weights are non-negative. -/
theorem invest_stocks_mono (a : NationAgent) (hb : a.land_security_burden ≤ 1)
    (hn : 0 ≤ a.strategy.navy) (hm : 0 ≤ a.strategy.merchant) (hi : 0 ≤ a.strategy.industry) :
    a.industry ≤ a.invest.industry ∧ a.merchant_fleet ≤ a.invest.merchant_fleet ∧
    a.navy ≤ a.invest.navy := by
  rcases le_or_lt a.wealth 10 with h | h
  · rw [invest_of_le _ h]
    exact ⟨le_refl _, le_refl _, le_refl _⟩
  · rw [invest_of_gt _ h]
    have hnet : (0 : ℚ) ≤ a.wealth * 0.4 * (1 - a.land_security_burden) := by
      have h1 : (0 : ℚ) ≤ a.wealth * 0.4 := by nlinarith
      have h2 : (0 : ℚ) ≤ 1 - a.land_security_burden := by linarith
      exact mul_nonneg h1 h2
    refine ⟨?_, ?_, ?_⟩ <;> dsimp only <;>
      exact le_add_of_nonneg_right (floorQ_nonneg (by positivity))

/-- The whole agent step never shrinks any stock (under `paramsOK`). -/
theorem step_stocks_mono (a : NationAgent) (hp : paramsOK a) :
    a.industry ≤ a.step.industry ∧ a.merchant_fleet ≤ a.step.merchant_fleet ∧
    a.navy ≤ a.step.navy := by
  obtain ⟨_, hb, hn, hm, hi⟩ := hp
  unfold NationAgent.step
  have h := invest_stocks_mono a.economic_cycle hb hn hm hi
  rw [pay_maintenance_eq]
  exact h

/-! ### The scripted escalation check -/

/-- The escalation rewrites state exactly when its guard holds. -/
theorem escalation_check_of_fires (m : SeaPowerModel) (h1 : m.steps = 15)
    (h2 : m.ger.land_security_burden < 0.1) :
    m.escalation_check =
      { m with
        ger := { m.ger with strategy := ⟨0.8, 0.0, 0.2⟩, name := "Germany (Total War)" }
        status_message := "⚠️ 警告：德国启动《提尔皮茨计划》！(Total War Econ)" } := by
  unfold SeaPowerModel.escalation_check
  rw [if_pos h1, if_pos h2]

/-- Outside its guard the escalation is the identity. -/
theorem escalation_check_of_skip (m : SeaPowerModel) (h : ¬ escalationFires m) :
    m.escalation_check = m := by
  unfold SeaPowerModel.escalation_check
  split_ifs with h1 h2
  · exact absurd ⟨h1, h2⟩ h
  · rfl
  · rfl

/-- The escalation never touches a navy value. -/
theorem escalation_navy (m : SeaPowerModel) (i : Fin 3) :
    ((m.escalation_check).agent i).navy = (m.agent i).navy := by
  unfold SeaPowerModel.escalation_check
  split_ifs <;> fin_cases i <;> rfl

/-- Numeric agent state, burden, color and both flags pass through the
escalation unchanged. -/
theorem escalation_agent_frame (m : SeaPowerModel) (i : Fin 3) :
    ((m.escalation_check).agent i).wealth = (m.agent i).wealth ∧
    ((m.escalation_check).agent i).industry = (m.agent i).industry ∧
    ((m.escalation_check).agent i).merchant_fleet = (m.agent i).merchant_fleet ∧
    ((m.escalation_check).agent i).land_security_burden = (m.agent i).land_security_burden ∧
    ((m.escalation_check).agent i).color = (m.agent i).color ∧
    ((m.escalation_check).agent i).has_sea_control = (m.agent i).has_sea_control ∧
    ((m.escalation_check).agent i).is_blockaded = (m.agent i).is_blockaded := by
  unfold SeaPowerModel.escalation_check
  split_ifs <;> fin_cases i <;> exact ⟨rfl, rfl, rfl, rfl, rfl, rfl, rfl⟩

/-- The escalation leaves the step counter and sea-state label alone. -/
theorem escalation_model_frame (m : SeaPowerModel) :
    (m.escalation_check).steps = m.steps ∧
    (m.escalation_check).current_sea_state = m.current_sea_state := by
  unfold SeaPowerModel.escalation_check
  split_ifs <;> exact ⟨rfl, rfl⟩

/-- The escalation does not disturb the navy ranking. -/
theorem escalation_sortedIdx (m : SeaPowerModel) :
    (m.escalation_check).sortedIdx = m.sortedIdx := by
  simp only [SeaPowerModel.sortedIdx, escalation_navy]

/-- The escalation does not disturb the guarded navy ratio. -/
theorem escalation_ratio (m : SeaPowerModel) :
    (m.escalation_check).ratio = m.ratio := by
  unfold SeaPowerModel.ratio
  rw [escalation_sortedIdx, escalation_navy, escalation_navy]

/-! ### The scheduler step -/

/-- Each agent is stepped on its own state. -/
theorem schedule_step_agent (m : SeaPowerModel) (i : Fin 3) :
    ((m.schedule_step).agent i) = (m.agent i).step := by
  fin_cases i <;> rfl

theorem schedule_step_steps (m : SeaPowerModel) :
    (m.schedule_step).steps = m.steps + 1 := rfl

theorem schedule_step_frame (m : SeaPowerModel) :
    (m.schedule_step).current_sea_state = m.current_sea_state ∧
    (m.schedule_step).status_message = m.status_message := ⟨rfl, rfl⟩

/-! ### Run-level invariants -/

/-- The scheduler step counter of `run … n` is `n`. -/
theorem run_steps (bg bu : ℚ) (n : ℕ) : (SeaPowerModel.run bg bu n).steps = n := by
  induction n with
  | zero => rfl
  | succ k ih =>
      show ((SeaPowerModel.run bg bu k).step).steps = k + 1
      unfold SeaPowerModel.step
      rw [schedule_step_steps, (determine_frame _).1, (escalation_model_frame _).1, ih]

/-- Burdens are fixed at construction: each agent of `run … n` keeps its
construction-time burden. -/
theorem run_burden (bg bu : ℚ) (n : ℕ) :
    ((SeaPowerModel.run bg bu n).agent 0).land_security_burden = bu ∧
    ((SeaPowerModel.run bg bu n).agent 1).land_security_burden = bg ∧
    ((SeaPowerModel.run bg bu n).agent 2).land_security_burden = 0.1 := by
  induction n with
  | zero => exact ⟨rfl, rfl, rfl⟩
  | succ k ih =>
      have hstep : ∀ i : Fin 3,
          ((SeaPowerModel.run bg bu (k + 1)).agent i).land_security_burden =
          ((SeaPowerModel.run bg bu k).agent i).land_security_burden := by
        intro i
        show (((SeaPowerModel.run bg bu k).step).agent i).land_security_burden = _
        unfold SeaPowerModel.step
        rw [schedule_step_agent, (step_frame _).2.2.2.1, (determine_preserves _ _).2.2.2.1,
          (escalation_agent_frame _ _).2.2.2.1]
      rw [hstep 0, hstep 1, hstep 2]
      exact ih

/-! ### Parameter invariants along a run -/

theorem escalation_paramsOK (m : SeaPowerModel) (i : Fin 3)
    (h : paramsOK (m.agent i)) : paramsOK ((m.escalation_check).agent i) := by
  unfold SeaPowerModel.escalation_check
  split_ifs with h1 h2
  · fin_cases i
    · exact h
    · obtain ⟨hb0, hb1, _, _, _⟩ := h
      exact ⟨hb0, hb1, (by norm_num : (0:ℚ) ≤ 0.8), (by norm_num : (0:ℚ) ≤ 0.0),
        (by norm_num : (0:ℚ) ≤ 0.2)⟩
    · exact h
  · exact h
  · exact h

theorem determine_paramsOK (m : SeaPowerModel) (i : Fin 3)
    (h : paramsOK (m.agent i)) : paramsOK ((m.determine_sea_control).agent i) := by
  have hp := determine_preserves m i
  unfold paramsOK at h ⊢
  rw [hp.2.2.2.1, hp.2.1]
  exact h

theorem step_paramsOK (a : NationAgent) (h : paramsOK a) : paramsOK a.step := by
  have hf := step_frame a
  unfold paramsOK at h ⊢
  rw [hf.2.2.2.1, hf.2.1]
  exact h

/-- All parameters stay valid along a run when the construction burdens lie
in [0, 1]. -/
theorem run_paramsOK (bg bu : ℚ) (hbg0 : 0 ≤ bg) (hbg1 : bg ≤ 1)
    (hbu0 : 0 ≤ bu) (hbu1 : bu ≤ 1) (n : ℕ) (i : Fin 3) :
    paramsOK ((SeaPowerModel.run bg bu n).agent i) := by
  induction n with
  | zero =>
      fin_cases i
      · exact ⟨hbu0, hbu1, (by norm_num : (0:ℚ) ≤ 0.6), (by norm_num : (0:ℚ) ≤ 0.3),
          (by norm_num : (0:ℚ) ≤ 0.1)⟩
      · exact ⟨hbg0, hbg1, (by norm_num : (0:ℚ) ≤ 0.3), (by norm_num : (0:ℚ) ≤ 0.2),
          (by norm_num : (0:ℚ) ≤ 0.5)⟩
      · exact ⟨(by norm_num : (0:ℚ) ≤ 0.1), (by norm_num : (0.1:ℚ) ≤ 1),
          (by norm_num : (0:ℚ) ≤ 0.1), (by norm_num : (0:ℚ) ≤ 0.8),
          (by norm_num : (0:ℚ) ≤ 0.1)⟩
  | succ k ih =>
      show paramsOK (((SeaPowerModel.run bg bu k).step).agent i)
      unfold SeaPowerModel.step
      rw [schedule_step_agent]
      exact step_paramsOK _ (determine_paramsOK _ _ (escalation_paramsOK _ _ ih))

/-- Navy after the determination: unchanged in the dominated branch, decayed
by 0.95 on the top two in the contested branch. -/
theorem determine_navy_eq (m : SeaPowerModel) (i : Fin 3) :
    ((m.determine_sea_control).agent i).navy =
      if 1.2 < m.ratio then (m.agent i).navy
      else if i = m.sortedIdx.1 ∨ i = m.sortedIdx.2.1
        then (m.agent i).navy * 0.95 else (m.agent i).navy := by
  rw [determine_agent_eq]
  split_ifs <;> rfl

/-- One model step, per agent, is the agent update of the post-determination
agent. -/
theorem run_succ_agent (bg bu : ℚ) (n : ℕ) (i : Fin 3) :
    (SeaPowerModel.run bg bu (n + 1)).agent i =
      (((SeaPowerModel.run bg bu n).escalation_check.determine_sea_control).agent i).step := by
  show (((SeaPowerModel.run bg bu n).step).agent i) = _
  unfold SeaPowerModel.step
  rw [schedule_step_agent]

/-- Stocks stay non-negative along a run. -/
theorem run_stocks_nonneg (bg bu : ℚ) (hbg0 : 0 ≤ bg) (hbg1 : bg ≤ 1)
    (hbu0 : 0 ≤ bu) (hbu1 : bu ≤ 1) (n : ℕ) (i : Fin 3) :
    0 ≤ ((SeaPowerModel.run bg bu n).agent i).industry ∧
    0 ≤ ((SeaPowerModel.run bg bu n).agent i).merchant_fleet ∧
    0 ≤ ((SeaPowerModel.run bg bu n).agent i).navy := by
  induction n with
  | zero =>
      fin_cases i <;>
        exact ⟨(by norm_num : (0:ℚ) ≤ 120), (by norm_num : (0:ℚ) ≤ 50),
          (by norm_num : (0:ℚ) ≤ 20)⟩
  | succ k ih =>
      have hp := determine_paramsOK _ i (escalation_paramsOK _ i
        (run_paramsOK bg bu hbg0 hbg1 hbu0 hbu1 k i))
      have hmono := step_stocks_mono _ hp
      rw [run_succ_agent]
      have e_ind : (((SeaPowerModel.run bg bu k).escalation_check.determine_sea_control).agent i).industry
          = ((SeaPowerModel.run bg bu k).agent i).industry := by
        rw [(determine_preserves _ _).2.2.2.2.2.1, (escalation_agent_frame _ _).2.1]
      have e_mer : (((SeaPowerModel.run bg bu k).escalation_check.determine_sea_control).agent i).merchant_fleet
          = ((SeaPowerModel.run bg bu k).agent i).merchant_fleet := by
        rw [(determine_preserves _ _).2.2.2.2.2.2, (escalation_agent_frame _ _).2.2.1]
      have e_nav : 0 ≤ (((SeaPowerModel.run bg bu k).escalation_check.determine_sea_control).agent i).navy := by
        rw [determine_navy_eq, escalation_ratio, escalation_sortedIdx, escalation_navy]
        split_ifs
        · exact ih.2.2
        · exact mul_nonneg ih.2.2 (by norm_num)
        · exact ih.2.2
      refine ⟨le_trans ?_ hmono.1, le_trans ?_ hmono.2.1, le_trans e_nav hmono.2.2⟩
      · rw [e_ind]; exact ih.1
      · rw [e_mer]; exact ih.2.1

/-! ### Order-independence of the scheduler -/

/-- Stepping two agents commutes: each agent update touches only its own
state. -/
theorem updStep_comm (m : SeaPowerModel) (i j : Fin 3) :
    (m.updAgent i NationAgent.step).updAgent j NationAgent.step =
    (m.updAgent j NationAgent.step).updAgent i NationAgent.step := by
  fin_cases i <;> fin_cases j <;> rfl

theorem foldl_updStep_perm {l1 l2 : List (Fin 3)} (p : l1.Perm l2) (m : SeaPowerModel) :
    l1.foldl (fun mm i => mm.updAgent i NationAgent.step) m =
    l2.foldl (fun mm i => mm.updAgent i NationAgent.step) m := by
  induction p generalizing m with
  | nil => rfl
  | cons x _ ih => exact ih _
  | swap x y l =>
      show List.foldl _ ((m.updAgent y NationAgent.step).updAgent x NationAgent.step) l =
        List.foldl _ ((m.updAgent x NationAgent.step).updAgent y NationAgent.step) l
      rw [updStep_comm]
  | trans _ _ ih1 ih2 => exact (ih1 m).trans (ih2 m)

theorem schedule_stepOrdered_perm (m : SeaPowerModel) {l : List (Fin 3)}
    (h : l.Perm [0, 1, 2]) : m.schedule_stepOrdered l = m.schedule_step := by
  unfold SeaPowerModel.schedule_stepOrdered SeaPowerModel.schedule_step
  rw [foldl_updStep_perm h]
  rfl

theorem stepOrdered_perm (m : SeaPowerModel) {l : List (Fin 3)}
    (h : l.Perm [0, 1, 2]) : m.stepOrdered l = m.step := by
  unfold SeaPowerModel.stepOrdered SeaPowerModel.step
  rw [schedule_stepOrdered_perm _ h]

/-- Any sequence of per-step activation orders produces the canonical run. -/
theorem runOrdered_eq_run (bg bu : ℚ) (o : ℕ → List (Fin 3))
    (ho : ∀ k, (o k).Perm [0, 1, 2]) (n : ℕ) :
    SeaPowerModel.runOrdered bg bu o n = SeaPowerModel.run bg bu n := by
  induction n with
  | zero => rfl
  | succ k ih =>
      show (SeaPowerModel.runOrdered bg bu o k).stepOrdered (o k) = (SeaPowerModel.run bg bu k).step
      rw [ih, stepOrdered_perm _ (ho k)]

/-! ### Claim theorems -/

/-- Claim C1: after every sea-control determination, at most one agent has
sea control; if some agent has it, every other agent is blockaded and the
holder itself is not; and no agent is simultaneously blockaded and in
possession of sea control. -/
theorem sea_control_exclusive (m : SeaPowerModel) :
    (∀ i j : Fin 3, ((m.determine_sea_control).agent i).has_sea_control = true →
      ((m.determine_sea_control).agent j).has_sea_control = true → i = j) ∧
    (∀ i : Fin 3, ((m.determine_sea_control).agent i).has_sea_control = true →
      ((m.determine_sea_control).agent i).is_blockaded = false ∧
      ∀ j : Fin 3, j ≠ i → ((m.determine_sea_control).agent j).is_blockaded = true) ∧
    (∀ i : Fin 3, ¬(((m.determine_sea_control).agent i).is_blockaded = true ∧
      ((m.determine_sea_control).agent i).has_sea_control = true)) := by
  have hctl : ∀ i : Fin 3, ((m.determine_sea_control).agent i).has_sea_control = true ↔
      (1.2 < m.ratio ∧ i = m.sortedIdx.1) := by
    intro i
    rw [determine_agent_eq]
    split_ifs with hr <;> simp [hr]
  have hblk : ∀ i : Fin 3, ((m.determine_sea_control).agent i).is_blockaded = true ↔
      (1.2 < m.ratio ∧ i ≠ m.sortedIdx.1) := by
    intro i
    rw [determine_agent_eq]
    split_ifs with hr <;> simp [hr]
  refine ⟨?_, ?_, ?_⟩
  · intro i j hi hj
    rw [((hctl i).mp hi).2, ((hctl j).mp hj).2]
  · intro i hi
    obtain ⟨hr, hst⟩ := (hctl i).mp hi
    constructor
    · rw [Bool.eq_false_iff]
      intro hb
      exact ((hblk i).mp hb).2 hst
    · intro j hj
      exact (hblk j).mpr ⟨hr, fun hc => hj (hc.trans hst.symm)⟩
  · rintro i ⟨hb, hc⟩
    exact ((hblk i).mp hb).2 ((hctl i).mp hc).2

/-- Witness for C1 at a concrete dominated state: UK holds sea control, so
Germany and the Netherlands are both blockaded. -/
theorem sea_control_exclusive_witness :
    ((mDom.determine_sea_control).agent 1).is_blockaded = true ∧
    ((mDom.determine_sea_control).agent 2).is_blockaded = true := by
  have hs : mDom.sortedIdx = (0, 1, 2) := by decide
  have hr : 1.2 < mDom.ratio := by
    have he : mDom.ratio = 40 / max 1 20 := by
      rw [SeaPowerModel.ratio, hs]
      rfl
    rw [he, max_eq_right (by norm_num : (1:ℚ) ≤ 20)]
    norm_num
  have hctl0 : ((mDom.determine_sea_control).agent 0).has_sea_control = true := by
    rw [determine_agent_eq, if_pos hr, hs]
    rfl
  have h := (sea_control_exclusive mDom).2.1 0 hctl0
  exact ⟨h.2 1 (by decide), h.2 2 (by decide)⟩

/-- Counterexample to C2 as stated: with navies (1, 0, 0) the strongest
navy exceeds the runner-up's by more than 20% (1 > 1.2·0), yet the guarded
ratio is 1/max(1,0) = 1 ≤ 1.2, so no sea control is granted. -/
theorem sea_control_threshold_cex :
    1.2 * (cex2.agent cex2.sortedIdx.2.1).navy < (cex2.agent cex2.sortedIdx.1).navy ∧
    ((cex2.determine_sea_control).agent cex2.sortedIdx.1).has_sea_control = false := by
  have hs : cex2.sortedIdx = (0, 1, 2) := by decide
  have hr : ¬ (1.2 < cex2.ratio) := by
    have he : cex2.ratio = 1 / max 1 0 := by
      rw [SeaPowerModel.ratio, hs]
      rfl
    rw [he, max_eq_left (by norm_num : (0:ℚ) ≤ 1)]
    norm_num
  constructor
  · rw [hs]
    show (1.2:ℚ) * 0 < 1
    norm_num
  · rw [determine_agent_eq, if_neg hr]

/-- Claim C2, amended: the strongest agent (by the stable descending navy
sort) gains sea control iff its navy exceeds 1.2 times `max 1 runner_up.navy`
(the division guard makes runner-up navies below 1 count as 1), and no other
agent ever gains sea control. -/
theorem sea_control_threshold_guarded (m : SeaPowerModel) :
    (∀ i : Fin 3, (m.agent i).navy ≤ (m.agent m.sortedIdx.1).navy) ∧
    (((m.determine_sea_control).agent m.sortedIdx.1).has_sea_control = true ↔
      1.2 * max 1 (m.agent m.sortedIdx.2.1).navy < (m.agent m.sortedIdx.1).navy) ∧
    (∀ i : Fin 3, i ≠ m.sortedIdx.1 →
      ((m.determine_sea_control).agent i).has_sea_control = false) := by
  have hmaxpos : (0:ℚ) < max 1 (m.agent m.sortedIdx.2.1).navy :=
    lt_of_lt_of_le one_pos (le_max_left _ _)
  refine ⟨sortedIdx_max m, ?_, ?_⟩
  · rw [determine_agent_eq]
    split_ifs with hr
    · rw [SeaPowerModel.ratio, lt_div_iff₀ hmaxpos] at hr
      exact iff_of_true (by simp) (by linarith)
    · rw [SeaPowerModel.ratio, lt_div_iff₀ hmaxpos] at hr
      exact iff_of_false (by simp) (by linarith [not_lt.mp hr])
  · intro i hi
    rw [determine_agent_eq]
    split_ifs <;> simp [hi]

/-- Witness for the amended C2 at concrete states: with navies (40, 20, 20)
the UK gains sea control (40 > 1.2·20) and the Netherlands does not. -/
theorem sea_control_threshold_guarded_witness :
    ((mDom.determine_sea_control).agent mDom.sortedIdx.1).has_sea_control = true ∧
    ((mDom.determine_sea_control).agent 2).has_sea_control = false := by
  have hs : mDom.sortedIdx = (0, 1, 2) := by decide
  constructor
  · apply (sea_control_threshold_guarded mDom).2.1.mpr
    rw [hs]
    show (1.2:ℚ) * max 1 20 < 40
    rw [max_eq_right (by norm_num : (1:ℚ) ≤ 20)]
    norm_num
  · exact (sea_control_threshold_guarded mDom).2.2 2 (by rw [hs]; decide)

/-- Claim C3: the economic cycle adds exactly base_income + trade_income to
wealth and changes nothing else; the industrial multiplier is 4.0 for the
land-power agent (color `"#8B4513"`) regardless of its blockade flag, else
0.2 when blockaded and 1.5 otherwise; trade efficiency is 2.0 under sea
control, 0.05 under blockade, else 0.8. -/
theorem economic_cycle_spec (a : NationAgent) :
    a.economic_cycle.wealth = a.wealth +
      (a.industry * (if a.color = "#8B4513" then 4.0 else if a.is_blockaded then 0.2 else 1.5) +
       a.merchant_fleet * 2.0 *
         (if a.has_sea_control then 2.0 else if a.is_blockaded then 0.05 else 0.8)) ∧
    a.economic_cycle.name = a.name ∧ a.economic_cycle.strategy = a.strategy ∧
    a.economic_cycle.color = a.color ∧
    a.economic_cycle.land_security_burden = a.land_security_burden ∧
    a.economic_cycle.industry = a.industry ∧
    a.economic_cycle.merchant_fleet = a.merchant_fleet ∧
    a.economic_cycle.navy = a.navy ∧
    a.economic_cycle.has_sea_control = a.has_sea_control ∧
    a.economic_cycle.is_blockaded = a.is_blockaded :=
  ⟨rfl, rfl, rfl, rfl, rfl, rfl, rfl, rfl, rfl, rfl⟩

/-- Claim C4: investment is skipped entirely at wealth ≤ 10; otherwise it
deducts exactly wealth·0.4, and adds the integer-floored shares
floor(net_budget·strategy.X / cost) to each stock, leaving identity,
strategy, burden and flags unchanged. -/
theorem invest_spec (a : NationAgent) :
    (a.wealth ≤ 10 → a.invest = a) ∧
    (10 < a.wealth →
      a.invest.wealth = a.wealth - a.wealth * 0.4 ∧
      a.invest.industry = a.industry +
        floorQ (a.wealth * 0.4 * (1 - a.land_security_burden) * a.strategy.industry / 40) ∧
      a.invest.merchant_fleet = a.merchant_fleet +
        floorQ (a.wealth * 0.4 * (1 - a.land_security_burden) * a.strategy.merchant / 8) ∧
      a.invest.navy = a.navy +
        floorQ (a.wealth * 0.4 * (1 - a.land_security_burden) * a.strategy.navy / 15) ∧
      a.invest.name = a.name ∧ a.invest.strategy = a.strategy ∧
      a.invest.color = a.color ∧
      a.invest.land_security_burden = a.land_security_burden ∧
      a.invest.has_sea_control = a.has_sea_control ∧
      a.invest.is_blockaded = a.is_blockaded) := by
  constructor
  · intro h
    exact invest_of_le a h
  · intro h
    rw [invest_of_gt a h]
    exact ⟨rfl, rfl, rfl, rfl, rfl, rfl, rfl, rfl, rfl, rfl⟩

/-- Witness for C4: at wealth 5 nothing changes; at wealth 100 the 40%
budget is deducted and the floored navy share is added. -/
theorem invest_spec_witness :
    NationAgent.invest aLow = aLow ∧
    (NationAgent.invest aHigh).wealth = aHigh.wealth - aHigh.wealth * 0.4 ∧
    (NationAgent.invest aHigh).navy = aHigh.navy +
      floorQ (aHigh.wealth * 0.4 * (1 - aHigh.land_security_burden) * aHigh.strategy.navy / 15) := by
  have h1 : aLow.wealth ≤ 10 := by
    show (5:ℚ) ≤ 10
    norm_num
  have h2 : (10:ℚ) < aHigh.wealth := by
    show (10:ℚ) < 100
    norm_num
  exact ⟨(invest_spec aLow).1 h1, ((invest_spec aHigh).2 h2).1,
    ((invest_spec aHigh).2 h2).2.2.2.1⟩

/-- Counterexample to the label clause of C5 as stated: in a contested
state the code sets the global sea-state label to `"Contested"` (capital C),
not `"contested"`. -/
theorem contested_label_cex :
    (SeaPowerModel.init 0.5 0.05).ratio ≤ 1.2 ∧
    (SeaPowerModel.init 0.5 0.05).determine_sea_control.current_sea_state ≠ "contested" := by
  have hs : (SeaPowerModel.init 0.5 0.05).sortedIdx = (0, 1, 2) := by decide
  have hr : (SeaPowerModel.init 0.5 0.05).ratio ≤ 1.2 := by
    have he : (SeaPowerModel.init 0.5 0.05).ratio = 20 / max 1 20 := by
      rw [SeaPowerModel.ratio, hs]
      rfl
    rw [he, max_eq_right (by norm_num : (1:ℚ) ≤ 20)]
    norm_num
  refine ⟨hr, ?_⟩
  rw [determine_sea_state_eq, if_neg (not_lt.mpr hr)]
  decide

/-- Claim C5, amended: when the determination computes ratio ≤ 1.2, no
agent ends with sea control or blockade, the strongest and runner-up navies
are multiplied by 0.95 (before the agent investment phase of the same step,
since the model step runs the determination first), the third navy is
unchanged, and the label is set to `"Contested"` (capital C, amending the
claim's `"contested"`). -/
theorem contested_spec (m : SeaPowerModel) (h : m.ratio ≤ 1.2) :
    (∀ i : Fin 3, ((m.determine_sea_control).agent i).has_sea_control = false ∧
      ((m.determine_sea_control).agent i).is_blockaded = false) ∧
    ((m.determine_sea_control).agent m.sortedIdx.1).navy =
      (m.agent m.sortedIdx.1).navy * 0.95 ∧
    ((m.determine_sea_control).agent m.sortedIdx.2.1).navy =
      (m.agent m.sortedIdx.2.1).navy * 0.95 ∧
    ((m.determine_sea_control).agent m.sortedIdx.2.2).navy =
      (m.agent m.sortedIdx.2.2).navy ∧
    (m.determine_sea_control).current_sea_state = "Contested" ∧
    m.step = m.escalation_check.determine_sea_control.schedule_step := by
  have hr : ¬ (1.2 < m.ratio) := not_lt.mpr h
  obtain ⟨hne1, hne2, hne3⟩ := sortedIdx_ne m
  refine ⟨?_, ?_, ?_, ?_, ?_, rfl⟩
  · intro i
    rw [determine_agent_eq, if_neg hr]
    exact ⟨rfl, rfl⟩
  · rw [determine_navy_eq, if_neg hr, if_pos (Or.inl rfl)]
  · rw [determine_navy_eq, if_neg hr, if_pos (Or.inr rfl)]
  · rw [determine_navy_eq, if_neg hr,
      if_neg (fun hc => hc.elim (fun e => hne2 e.symm) (fun e => hne3 e.symm))]
  · rw [determine_sea_state_eq, if_neg hr]

/-- Witness for the amended C5 at the freshly constructed model (all navies
20, ratio 1): the strongest (UK) navy decays to 0.95 of its value and the
label reads `"Contested"`. -/
theorem contested_spec_witness :
    ((SeaPowerModel.init 0.5 0.05).determine_sea_control.agent 0).navy =
      ((SeaPowerModel.init 0.5 0.05).agent 0).navy * 0.95 ∧
    (SeaPowerModel.init 0.5 0.05).determine_sea_control.current_sea_state = "Contested" := by
  have hs : (SeaPowerModel.init 0.5 0.05).sortedIdx = (0, 1, 2) := by decide
  have hr : (SeaPowerModel.init 0.5 0.05).ratio ≤ 1.2 := by
    have he : (SeaPowerModel.init 0.5 0.05).ratio = 20 / max 1 20 := by
      rw [SeaPowerModel.ratio, hs]
      rfl
    rw [he, max_eq_right (by norm_num : (1:ℚ) ≤ 20)]
    norm_num
  have h := contested_spec (SeaPowerModel.init 0.5 0.05) hr
  rw [hs] at h
  exact ⟨h.2.1, h.2.2.2.2.1⟩

/-- Claim C6: on a run, the scripted escalation guard holds exactly at the
call with step counter 15 (the 16th call) with Germany's construction burden
below 0.1; outside the guard the escalation is the identity (so it can never
fire on a later step); and when it fires it installs the total-war strategy
{navy 0.8, merchant 0.0, industry 0.2}, the new name and the status message,
all of which survive the rest of that step. -/
theorem escalation_once_iff (bg bu : ℚ) (n : ℕ) :
    (escalationFires (SeaPowerModel.run bg bu n) ↔ (n = 15 ∧ bg < 0.1)) ∧
    (¬ escalationFires (SeaPowerModel.run bg bu n) →
      (SeaPowerModel.run bg bu n).escalation_check = SeaPowerModel.run bg bu n) ∧
    (n = 15 ∧ bg < 0.1 →
      (SeaPowerModel.run bg bu (n + 1)).ger.strategy = ⟨0.8, 0.0, 0.2⟩ ∧
      (SeaPowerModel.run bg bu (n + 1)).ger.name = "Germany (Total War)" ∧
      (SeaPowerModel.run bg bu (n + 1)).status_message =
        "⚠️ 警告：德国启动《提尔皮茨计划》！(Total War Econ)") := by
  have hgb : (SeaPowerModel.run bg bu n).ger.land_security_burden = bg := by
    rw [← agent_one]
    exact (run_burden bg bu n).2.1
  refine ⟨?_, escalation_check_of_skip _, ?_⟩
  · unfold escalationFires
    rw [run_steps, hgb]
  · rintro ⟨hn, hb⟩
    subst hn
    have hf := escalation_check_of_fires (SeaPowerModel.run bg bu 15)
      (run_steps bg bu 15) (by rw [hgb]; exact hb)
    refine ⟨?_, ?_, ?_⟩
    · show (((SeaPowerModel.run bg bu 15).step).ger).strategy = _
      rw [← agent_one]
      unfold SeaPowerModel.step
      rw [schedule_step_agent, (step_frame _).2.1, (determine_preserves _ _).2.1, hf]
      rfl
    · show (((SeaPowerModel.run bg bu 15).step).ger).name = _
      rw [← agent_one]
      unfold SeaPowerModel.step
      rw [schedule_step_agent, (step_frame _).1, (determine_preserves _ _).1, hf]
      rfl
    · show ((SeaPowerModel.run bg bu 15).step).status_message = _
      unfold SeaPowerModel.step
      rw [(schedule_step_frame _).2, (determine_frame _).2, hf]

/-- Witness for C6: with construction burden 0 for Germany, the guard holds
at step counter 15 and the 16th step installs the total-war name. -/
theorem escalation_once_iff_witness :
    escalationFires (SeaPowerModel.run 0 0 15) ∧
    (SeaPowerModel.run 0 0 16).ger.name = "Germany (Total War)" := by
  refine ⟨(escalation_once_iff 0 0 15).1.mpr ⟨rfl, by norm_num⟩, ?_⟩
  exact ((escalation_once_iff 0 0 15).2.2 ⟨rfl, by norm_num⟩).2.1

/-- Claim C7: on every reachable state of a run, every agent's wealth is
non-negative (maintenance is the last phase of each step and clamps wealth
at 0; the starting wealth is 500). -/
theorem wealth_nonneg (bg bu : ℚ) (n : ℕ) (i : Fin 3) :
    0 ≤ ((SeaPowerModel.run bg bu n).agent i).wealth := by
  cases n with
  | zero => fin_cases i <;> exact (by norm_num : (0:ℚ) ≤ 500)
  | succ k =>
      rw [run_succ_agent]
      exact pay_maintenance_wealth_nonneg _

/-- Claim C8: along a run with construction burdens in [0, 1], every stock
is non-negative at every step; industry and merchant_fleet never decrease;
navy never decreases except via the contested 0.95 decay applied to the two
strongest navies of the step. -/
theorem stocks_evolution (bg bu : ℚ) (hbg0 : 0 ≤ bg) (hbg1 : bg ≤ 1)
    (hbu0 : 0 ≤ bu) (hbu1 : bu ≤ 1) (n : ℕ) (i : Fin 3) :
    (0 ≤ ((SeaPowerModel.run bg bu n).agent i).industry ∧
     0 ≤ ((SeaPowerModel.run bg bu n).agent i).merchant_fleet ∧
     0 ≤ ((SeaPowerModel.run bg bu n).agent i).navy) ∧
    ((SeaPowerModel.run bg bu n).agent i).industry ≤
      ((SeaPowerModel.run bg bu (n + 1)).agent i).industry ∧
    ((SeaPowerModel.run bg bu n).agent i).merchant_fleet ≤
      ((SeaPowerModel.run bg bu (n + 1)).agent i).merchant_fleet ∧
    (if (SeaPowerModel.run bg bu n).ratio ≤ 1.2 ∧
        (i = (SeaPowerModel.run bg bu n).sortedIdx.1 ∨
         i = (SeaPowerModel.run bg bu n).sortedIdx.2.1)
     then ((SeaPowerModel.run bg bu n).agent i).navy * 0.95
     else ((SeaPowerModel.run bg bu n).agent i).navy) ≤
      ((SeaPowerModel.run bg bu (n + 1)).agent i).navy := by
  have hp := determine_paramsOK _ i (escalation_paramsOK _ i
    (run_paramsOK bg bu hbg0 hbg1 hbu0 hbu1 n i))
  have hmono := step_stocks_mono _ hp
  have e_ind : (((SeaPowerModel.run bg bu n).escalation_check.determine_sea_control).agent i).industry
      = ((SeaPowerModel.run bg bu n).agent i).industry := by
    rw [(determine_preserves _ _).2.2.2.2.2.1, (escalation_agent_frame _ _).2.1]
  have e_mer : (((SeaPowerModel.run bg bu n).escalation_check.determine_sea_control).agent i).merchant_fleet
      = ((SeaPowerModel.run bg bu n).agent i).merchant_fleet := by
    rw [(determine_preserves _ _).2.2.2.2.2.2, (escalation_agent_frame _ _).2.2.1]
  have e_nav : (((SeaPowerModel.run bg bu n).escalation_check.determine_sea_control).agent i).navy
      = if 1.2 < (SeaPowerModel.run bg bu n).ratio then ((SeaPowerModel.run bg bu n).agent i).navy
        else if i = (SeaPowerModel.run bg bu n).sortedIdx.1 ∨
            i = (SeaPowerModel.run bg bu n).sortedIdx.2.1
          then ((SeaPowerModel.run bg bu n).agent i).navy * 0.95
          else ((SeaPowerModel.run bg bu n).agent i).navy := by
    simp only [determine_navy_eq, escalation_ratio, escalation_sortedIdx, escalation_navy]
  refine ⟨run_stocks_nonneg bg bu hbg0 hbg1 hbu0 hbu1 n i, ?_, ?_, ?_⟩
  · rw [run_succ_agent]
    calc ((SeaPowerModel.run bg bu n).agent i).industry
        = (((SeaPowerModel.run bg bu n).escalation_check.determine_sea_control).agent i).industry := e_ind.symm
      _ ≤ _ := hmono.1
  · rw [run_succ_agent]
    calc ((SeaPowerModel.run bg bu n).agent i).merchant_fleet
        = (((SeaPowerModel.run bg bu n).escalation_check.determine_sea_control).agent i).merchant_fleet := e_mer.symm
      _ ≤ _ := hmono.2.1
  · rw [run_succ_agent]
    by_cases hr : 1.2 < (SeaPowerModel.run bg bu n).ratio
    · rw [if_neg (fun hc => absurd hr (not_lt.mpr hc.1))]
      calc ((SeaPowerModel.run bg bu n).agent i).navy
          = (((SeaPowerModel.run bg bu n).escalation_check.determine_sea_control).agent i).navy := by
            rw [e_nav, if_pos hr]
        _ ≤ _ := hmono.2.2
    · by_cases hmem : i = (SeaPowerModel.run bg bu n).sortedIdx.1 ∨
          i = (SeaPowerModel.run bg bu n).sortedIdx.2.1
      · rw [if_pos ⟨not_lt.mp hr, hmem⟩]
        calc ((SeaPowerModel.run bg bu n).agent i).navy * 0.95
            = (((SeaPowerModel.run bg bu n).escalation_check.determine_sea_control).agent i).navy := by
              rw [e_nav, if_neg hr, if_pos hmem]
          _ ≤ _ := hmono.2.2
      · rw [if_neg (fun hc => hmem hc.2)]
        calc ((SeaPowerModel.run bg bu n).agent i).navy
            = (((SeaPowerModel.run bg bu n).escalation_check.determine_sea_control).agent i).navy := by
              rw [e_nav, if_neg hr, if_neg hmem]
          _ ≤ _ := hmono.2.2

/-- Witness for C8 at burdens (0.5, 0.05), step 0, agent 0. -/
theorem stocks_evolution_witness :
    (0 ≤ ((SeaPowerModel.run 0.5 0.05 0).agent 0).industry ∧
     0 ≤ ((SeaPowerModel.run 0.5 0.05 0).agent 0).merchant_fleet ∧
     0 ≤ ((SeaPowerModel.run 0.5 0.05 0).agent 0).navy) ∧
    ((SeaPowerModel.run 0.5 0.05 0).agent 0).industry ≤
      ((SeaPowerModel.run 0.5 0.05 1).agent 0).industry ∧
    ((SeaPowerModel.run 0.5 0.05 0).agent 0).merchant_fleet ≤
      ((SeaPowerModel.run 0.5 0.05 1).agent 0).merchant_fleet ∧
    (if (SeaPowerModel.run 0.5 0.05 0).ratio ≤ 1.2 ∧
        ((0 : Fin 3) = (SeaPowerModel.run 0.5 0.05 0).sortedIdx.1 ∨
         (0 : Fin 3) = (SeaPowerModel.run 0.5 0.05 0).sortedIdx.2.1)
     then ((SeaPowerModel.run 0.5 0.05 0).agent 0).navy * 0.95
     else ((SeaPowerModel.run 0.5 0.05 0).agent 0).navy) ≤
      ((SeaPowerModel.run 0.5 0.05 1).agent 0).navy :=
  stocks_evolution 0.5 0.05 (by norm_num) (by norm_num) (by norm_num) (by norm_num) 0 0

/-- Claim C9: the model is deterministic in its construction inputs and
independent of the order in which agents are activated inside each step:
any two runs with the same burdens and any (possibly different) valid
activation orders agree on the entire state, in particular on every
derived total_power. -/
theorem run_order_independent (bg bu : ℚ) (o1 o2 : ℕ → List (Fin 3))
    (h1 : ∀ k, (o1 k).Perm [0, 1, 2]) (h2 : ∀ k, (o2 k).Perm [0, 1, 2]) (n : ℕ) :
    SeaPowerModel.runOrdered bg bu o1 n = SeaPowerModel.runOrdered bg bu o2 n ∧
    ∀ i : Fin 3, ((SeaPowerModel.runOrdered bg bu o1 n).agent i).total_power =
      ((SeaPowerModel.runOrdered bg bu o2 n).agent i).total_power := by
  have e1 := runOrdered_eq_run bg bu o1 h1 n
  have e2 := runOrdered_eq_run bg bu o2 h2 n
  rw [e1, e2]
  exact ⟨rfl, fun i => rfl⟩

/-- Witness for C9: two different activation orders, run for two steps. -/
theorem run_order_independent_witness :
    SeaPowerModel.runOrdered 0.5 0.05 (fun _ => [2, 0, 1]) 2 =
      SeaPowerModel.runOrdered 0.5 0.05 (fun _ => [0, 1, 2]) 2 :=
  (run_order_independent 0.5 0.05 (fun _ => [2, 0, 1]) (fun _ => [0, 1, 2])
    (fun _ => (by decide : ([2, 0, 1] : List (Fin 3)).Perm [0, 1, 2]))
    (fun _ => (by decide : ([0, 1, 2] : List (Fin 3)).Perm [0, 1, 2])) 2).1

/-- Claim C10: when the escalation fires, it changes only Germany's strategy
and name and the model's status message; Germany's burden, economic state and
flags, the other two agents, the step counter and the sea-state label are
untouched. -/
theorem escalation_frame_only (m : SeaPowerModel) (h1 : m.steps = 15)
    (h2 : m.ger.land_security_burden < 0.1) :
    (m.escalation_check).uk = m.uk ∧
    (m.escalation_check).ned = m.ned ∧
    (m.escalation_check).steps = m.steps ∧
    (m.escalation_check).current_sea_state = m.current_sea_state ∧
    (m.escalation_check).ger.land_security_burden = m.ger.land_security_burden ∧
    (m.escalation_check).ger.wealth = m.ger.wealth ∧
    (m.escalation_check).ger.industry = m.ger.industry ∧
    (m.escalation_check).ger.merchant_fleet = m.ger.merchant_fleet ∧
    (m.escalation_check).ger.navy = m.ger.navy ∧
    (m.escalation_check).ger.has_sea_control = m.ger.has_sea_control ∧
    (m.escalation_check).ger.is_blockaded = m.ger.is_blockaded ∧
    (m.escalation_check).ger.color = m.ger.color ∧
    (m.escalation_check).ger.strategy = ⟨0.8, 0.0, 0.2⟩ ∧
    (m.escalation_check).ger.name = "Germany (Total War)" ∧
    (m.escalation_check).status_message =
      "⚠️ 警告：德国启动《提尔皮茨计划》！(Total War Econ)" := by
  rw [escalation_check_of_fires m h1 h2]
  exact ⟨rfl, rfl, rfl, rfl, rfl, rfl, rfl, rfl, rfl, rfl, rfl, rfl, rfl, rfl, rfl⟩

/-- Witness for C10 at a concrete state poised at step counter 15. -/
theorem escalation_frame_only_witness :
    (mEsc.escalation_check).uk = mEsc.uk ∧
    (mEsc.escalation_check).ger.navy = mEsc.ger.navy := by
  have h := escalation_frame_only mEsc rfl (show (0:ℚ) < 0.1 by norm_num)
  exact ⟨h.1, h.2.2.2.2.2.2.2.2.1⟩

end SeaPower
